import Mathlib

/-!
Verification of the Volatile adapter of a reactive signal graph.

The authoritative source is `src/src/volatile.ts`: `createVolatile`,
`volatileGetFn`, and the `VOLATILE_NODE` prototype with `onChange`,
`producerMustRecompute` and `producerRecomputeValue`.  The reactive core
(`graph.ts`: the tracking context, `producerAccessed`,
`producerIncrementEpoch`, `producerNotifyConsumers`,
`producerUpdateValueVersion`) is not part of the sources; those operations
are modelled from the specification (sections 3, 4.1, 4.2 and 4.5) and are
marked as such below.

The embedding is a single-volatile-node state machine.  The external getter
`getSnapshot` is modelled as a pure sequence `Nat → Except E V` giving the
outcome of the k-th invocation (a throw is `Except.error`); the node carries
an invocation counter `calls` so that claims about how often the getter runs
are expressible.  The JS `undefined` content of the cached value slot is
`Option.none`.
-/

namespace SignalVolatile

/-- State of one volatile node.  Fields `version`, `lastCheckedEpoch`,
`dirty`, `live` come from the reactive-node bookkeeping of the data model
(spec section 3); `volatile`, `value`, `getSnapshot` come from
`VolatileNode` in `src/src/volatile.ts`.  `calls` counts invocations of
`getSnapshot`; `id` is the node identity used by the tracking context. -/
structure VolatileNode (V E : Type) where
  id : Nat
  version : Nat
  lastCheckedEpoch : Option Nat
  dirty : Bool
  live : Bool
  volatile : Bool
  value : Option V
  getSnapshot : Nat → Except E V
  calls : Nat

/-- Global graph state for the single-node model: the node, the global
epoch counter, the tracking-context top (spec section 4.1), the recorded
consumer-to-producer edges, and a counter of push-phase notifications. -/
structure GraphState (V E : Type) where
  node : VolatileNode V E
  epoch : Nat
  activeConsumer : Option Nat
  edges : List (Nat × Nat)
  notifies : Nat

variable {V E : Type}

/-- Modelled from the spec: `graph.ts` is not under `src/`.  Section 4.2
write path: "increment the global epoch" (process-wide counter, section 3). -/
def producerIncrementEpoch (g : GraphState V E) : GraphState V E :=
  { g with epoch := g.epoch + 1 }

/-- Modelled from the spec: `graph.ts` is not under `src/`.  Section 4.2
push phase `notifyConsumers` marks direct consumers dirty and never
recomputes; the single-node model records that the push phase ran. -/
def producerNotifyConsumers (g : GraphState V E) : GraphState V E :=
  { g with notifies := g.notifies + 1 }

/-- Modelled from the spec: `graph.ts` is not under `src/`.  Section 4.1
`recordAccess` appends an edge while a consumer is the active
tracking-context entry, and is a no-op outside an active computation. -/
def producerAccessed (g : GraphState V E) : GraphState V E :=
  match g.activeConsumer with
  | some c => { g with edges := (c, g.node.id) :: g.edges }
  | none => g

/-- Modelled from the spec: `graph.ts` is not under `src/`.  Section 4.1
`enterComputation` pushes the node onto the tracking context and returns
the previous top (scoped acquisition). -/
def consumerBeforeComputation (g : GraphState V E) : Option Nat × GraphState V E :=
  (g.activeConsumer, { g with activeConsumer := some g.node.id })

/-- Modelled from the spec: `graph.ts` is not under `src/`.  Section 4.1
`exitComputation` restores the previous tracking-context top. -/
def consumerAfterComputation (prev : Option Nat) (g : GraphState V E) : GraphState V E :=
  { g with activeConsumer := prev }

/-- From `src/src/volatile.ts` (`VOLATILE_NODE.producerMustRecompute`):
returns `node.dirty`. -/
def producerMustRecompute (n : VolatileNode V E) : Bool :=
  n.dirty

/-- Effect of one invocation of the external getter: it may mutate graph
state (for example flags touched by code it triggers) and either returns a
value or throws. -/
def SnapshotEffect (V E : Type) : Type :=
  GraphState V E → GraphState V E × Except E V

/-- From `src/src/volatile.ts` (`VOLATILE_NODE.producerRecomputeValue`),
parameterized over the effect of the `node.getSnapshot()` invocation.
Mirrors the source exactly: guard `node.volatile || node.dirty`; remember
`alreadyVolatile`; enter a tracking scope; `try` assigning
`node.value = node.getSnapshot()`; in the `finally` block run
`consumerAfterComputation(node, prevConsumer)` and then
`node.volatile ||= alreadyVolatile`; a thrown error is re-raised after the
`finally` block (the value assignment does not happen in that case). -/
def producerRecomputeValueWith (snapEff : SnapshotEffect V E) (g : GraphState V E) :
    GraphState V E × Option E :=
  if g.node.volatile || g.node.dirty then
    let alreadyVolatile := g.node.volatile
    let pc := consumerBeforeComputation g
    let res := snapEff pc.2
    match res.2 with
    | Except.ok v =>
      let g3 := { res.1 with node := { res.1.node with value := some v } }
      let g4 := consumerAfterComputation pc.1 g3
      ({ g4 with node := { g4.node with volatile := g4.node.volatile || alreadyVolatile } },
        none)
    | Except.error e =>
      let g4 := consumerAfterComputation pc.1 res.1
      ({ g4 with node := { g4.node with volatile := g4.node.volatile || alreadyVolatile } },
        some e)
  else
    (g, none)

/-- The stored getter as a snapshot effect: the k-th invocation yields
`getSnapshot k`, and the invocation counter records the call. -/
def invokeGetSnapshot : SnapshotEffect V E := fun g =>
  ({ g with node := { g.node with calls := g.node.calls + 1 } },
    g.node.getSnapshot g.node.calls)

/-- `producerRecomputeValue` of `src/src/volatile.ts` with the node getter
as the snapshot effect. -/
def producerRecomputeValue (g : GraphState V E) : GraphState V E × Option E :=
  producerRecomputeValueWith invokeGetSnapshot g

/-- Modelled from the spec: bookkeeping after a recomputation inside
`validate` (section 4.2): on normal return clear `dirty` and stamp
`lastCheckedEpoch`; a thrown error propagates before that bookkeeping. -/
def afterRecompute : GraphState V E × Option E → GraphState V E × Option E
  | (g1, none) =>
    ({ g1 with node :=
      { g1.node with dirty := false, lastCheckedEpoch := some g1.epoch } }, none)
  | (g1, some e) => (g1, some e)

/-- Modelled from the spec: `graph.ts` `producerUpdateValueVersion` is not
under `src/`.  Pull-phase `validate` of section 4.2 specialised to a node
with no recorded producers, with the per-kind dispatch of section 9 and the
volatile rule of section 4.5: in unsubscribed mode ("always when not live",
the `volatile` flag set) every validate unconditionally re-invokes the
getter; otherwise, if the node is clean and `lastCheckedEpoch` equals the
current epoch the walk is skipped; else the per-kind `mustRecompute` check
decides between recomputing and merely clearing `dirty` and stamping
`lastCheckedEpoch`. -/
def producerUpdateValueVersion (g : GraphState V E) : GraphState V E × Option E :=
  if g.node.volatile then
    afterRecompute (producerRecomputeValue g)
  else if g.node.dirty = false ∧ g.node.lastCheckedEpoch = some g.epoch then
    (g, none)
  else if producerMustRecompute g.node then
    afterRecompute (producerRecomputeValue g)
  else
    ({ g with node :=
      { g.node with dirty := false, lastCheckedEpoch := some g.epoch } }, none)

/-- From `src/src/volatile.ts` (`volatileGetFn`): update the cache if
necessary (`producerUpdateValueVersion`), track who accessed the signal
(`producerAccessed`), return `node.value`; an error thrown by the update
propagates to the caller. -/
def volatileGetFn (g : GraphState V E) : GraphState V E × Except E (Option V) :=
  match producerUpdateValueVersion g with
  | (g1, some e) => (g1, Except.error e)
  | (g1, none) =>
    let g2 := producerAccessed g1
    (g2, Except.ok g2.node.value)

/-- From `src/src/volatile.ts` (`VOLATILE_NODE.onChange`): increment
`this.version`, set `this.dirty`, `producerIncrementEpoch()`,
`producerNotifyConsumers(this)`.  The cached value slot and the getter are
not touched. -/
def onChange (g : GraphState V E) : GraphState V E :=
  let g1 := { g with node :=
    { g.node with version := g.node.version + 1, dirty := true } }
  producerNotifyConsumers (producerIncrementEpoch g1)

/-- The `VOLATILE_NODE` prototype of `src/src/volatile.ts`: the
reactive-node defaults (version 0, no epoch stamp, not live, value slot
uninitialized, modelled from the data model of spec section 3) overridden
with `dirty := true` and `volatile := true` as in the source; the getter
slot is filled by `createVolatile`. -/
def VOLATILE_NODE (f : Nat → Except E V) : VolatileNode V E :=
  { id := 0
    version := 0
    lastCheckedEpoch := none
    dirty := true
    live := false
    volatile := true
    value := none
    getSnapshot := f
    calls := 0 }

/-- From `src/src/volatile.ts` (`createVolatile`): a fresh object with the
`VOLATILE_NODE` prototype whose `getSnapshot` slot is the given getter.
The getter is not invoked. -/
def createVolatile (f : Nat → Except E V) : VolatileNode V E :=
  VOLATILE_NODE f

/-- A fresh graph containing the given node: epoch 0, empty tracking
context, no edges, no notifications yet. -/
def initialGraph (n : VolatileNode V E) : GraphState V E :=
  { node := n, epoch := 0, activeConsumer := none, edges := [], notifies := 0 }

/-- A concrete getter: the k-th invocation yields `10 + k`, never throws. -/
def okGetter : Nat → Except Nat Nat := fun k => Except.ok (10 + k)

/-- A fresh, never-observed volatile node in a fresh graph. -/
def unobservedGraph : GraphState Nat Nat :=
  initialGraph (createVolatile okGetter)

/-- A tracked (live, subscribed, hence non-volatile) node at the start of a
live interval: dirty, nothing cached yet.  The k-th getter invocation
yields `5 + k`. -/
def trackedGraph : GraphState Nat Nat :=
  { node :=
      { id := 0, version := 1, lastCheckedEpoch := none, dirty := true, live := true,
        volatile := false, value := none, calls := 0,
        getSnapshot := fun k => Except.ok (5 + k) },
    epoch := 1, activeConsumer := none, edges := [], notifies := 0 }

/-- A tracked node that has cached the value 42 from an external source
that keeps returning 42: clean, stamped at the current epoch. -/
def cachedGraph : GraphState Nat Nat :=
  { node :=
      { id := 0, version := 5, lastCheckedEpoch := some 3, dirty := false, live := true,
        volatile := false, value := some 42, calls := 1,
        getSnapshot := fun _ => Except.ok 42 },
    epoch := 3, activeConsumer := none, edges := [], notifies := 0 }

/-- A getter whose first invocation throws the error 7; later invocations
yield `100 + k`. -/
def throwingGetter : Nat → Except Nat Nat := fun k =>
  if k = 0 then Except.error 7 else Except.ok (100 + k)

/-- A fresh, never-observed node over `throwingGetter`. -/
def throwGraph : GraphState Nat Nat :=
  initialGraph (createVolatile throwingGetter)

/-- A snapshot effect whose triggered code clears the `volatile` flag of the
node before returning 0. -/
def flagClearingEffect : SnapshotEffect Nat Nat := fun g =>
  ({ g with node := { g.node with volatile := false } }, Except.ok 0)

theorem producerAccessed_node (g : GraphState V E) :
    (producerAccessed g).node = g.node := by
  unfold producerAccessed
  cases h : g.activeConsumer <;> simp [h]

theorem producerAccessed_epoch (g : GraphState V E) :
    (producerAccessed g).epoch = g.epoch := by
  unfold producerAccessed
  cases h : g.activeConsumer <;> simp [h]

theorem producerAccessed_activeConsumer (g : GraphState V E) :
    (producerAccessed g).activeConsumer = g.activeConsumer := by
  unfold producerAccessed
  cases h : g.activeConsumer <;> simp [h]

/-- C1: for a volatile node in unsubscribed mode (the `volatile` flag set,
never live), every call of `volatileGetFn` invokes `getSnapshot` exactly
once and returns the value that invocation produced; the mode flags and the
getter are unchanged by the read, so consecutive reads each re-invoke the
getter again (no caching). -/
theorem C1_unobserved_read_invokes_getter_once
    (g : GraphState V E) (v : V)
    (hvol : g.node.volatile = true) (hlive : g.node.live = false)
    (hsnap : g.node.getSnapshot g.node.calls = Except.ok v) :
    (volatileGetFn g).2 = Except.ok (some v) ∧
    (volatileGetFn g).1.node.calls = g.node.calls + 1 ∧
    (volatileGetFn g).1.node.volatile = true ∧
    (volatileGetFn g).1.node.live = false ∧
    (volatileGetFn g).1.node.getSnapshot = g.node.getSnapshot := by
  simp [volatileGetFn, producerUpdateValueVersion, producerRecomputeValue,
    producerRecomputeValueWith, invokeGetSnapshot, consumerBeforeComputation,
    consumerAfterComputation, afterRecompute, producerAccessed_node,
    hvol, hlive, hsnap]

/-- C1 witness: the theorem applied to a fresh unobserved node whose first
getter invocation yields 10. -/
theorem C1_witness :
    unobservedGraph.node.volatile = true ∧
    unobservedGraph.node.live = false ∧
    unobservedGraph.node.getSnapshot unobservedGraph.node.calls = Except.ok 10 ∧
    (volatileGetFn unobservedGraph).2 = Except.ok (some 10) :=
  ⟨rfl, rfl, rfl, (C1_unobserved_read_invokes_getter_once unobservedGraph 10 rfl rfl rfl).1⟩

/-- C3 counterexample: `producerMustRecompute` returns the `dirty` flag, not
the constant true.  After one validated read of a fresh (never live)
volatile node the spec bookkeeping of validate has cleared `dirty`, and
`producerMustRecompute` returns false on the resulting non-live node. -/
theorem C3_counterexample :
    (volatileGetFn unobservedGraph).1.node.live = false ∧
    producerMustRecompute (volatileGetFn unobservedGraph).1.node = false :=
  ⟨rfl, rfl⟩

/-- C3 amended: for every volatile node, `producerMustRecompute` returns
the `dirty` flag of the node (rather than true unconditionally); it is
true on a freshly created node, which starts dirty. -/
theorem C3_amended_mustRecompute_returns_dirty
    (n : VolatileNode V E) (f : Nat → Except E V) :
    producerMustRecompute n = n.dirty ∧
    (createVolatile f).dirty = true ∧
    producerMustRecompute (createVolatile f) = true :=
  ⟨rfl, rfl, rfl⟩

/-- C4: `onChange` performs exactly the write path: increment
`node.version` by one, set the `dirty` flag, increment the global epoch,
then notify direct consumers; every other component of the state — in
particular the cached value slot, the invocation counter and the getter —
is untouched, so `getSnapshot` is not invoked and the cached value is not
refreshed. -/
theorem C4_onChange_write_path (g : GraphState V E) :
    onChange g =
      { g with
        node := { g.node with version := g.node.version + 1, dirty := true },
        epoch := g.epoch + 1,
        notifies := g.notifies + 1 } :=
  rfl

/-- C10: `createVolatile` stores the given getter without invoking it (the
invocation counter of the fresh node is zero), and the fresh node starts
dirty and volatile, so the first read recomputes: it invokes the getter
(once) and returns its value. -/
theorem C10_createVolatile_defers_getter
    (f : Nat → Except E V) (v : V) (hsnap : f 0 = Except.ok v) :
    (createVolatile f).getSnapshot = f ∧
    (createVolatile f).calls = 0 ∧
    (createVolatile f).dirty = true ∧
    (createVolatile f).volatile = true ∧
    (volatileGetFn (initialGraph (createVolatile f))).1.node.calls = 1 ∧
    (volatileGetFn (initialGraph (createVolatile f))).2 = Except.ok (some v) := by
  refine ⟨rfl, rfl, rfl, rfl, ?_, ?_⟩ <;>
  simp [volatileGetFn, producerUpdateValueVersion, producerRecomputeValue,
    producerRecomputeValueWith, invokeGetSnapshot, consumerBeforeComputation,
    consumerAfterComputation, afterRecompute, producerAccessed_node,
    initialGraph, createVolatile, VOLATILE_NODE, hsnap]

/-- C10 witness: the theorem applied to the getter whose first invocation
yields 10. -/
theorem C10_witness :
    okGetter 0 = Except.ok 10 ∧
    (volatileGetFn (initialGraph (createVolatile okGetter))).2 = Except.ok (some 10) :=
  ⟨rfl, (C10_createVolatile_defers_getter okGetter 10 rfl).2.2.2.2.2⟩

/-- C2: for a node in tracked mode (live, subscribed, so the `volatile`
flag is off) at the start of a live interval (dirty), the first read
invokes the getter once and caches its value; the second read returns the
cached value without invoking the getter and leaves the node state fixed,
so any number of further reads behave identically until `onChange` marks
the node dirty again. -/
theorem C2_tracked_getter_once_per_interval
    (g : GraphState V E) (v : V)
    (hvol : g.node.volatile = false) (hlive : g.node.live = true)
    (hdirty : g.node.dirty = true)
    (hsnap : g.node.getSnapshot g.node.calls = Except.ok v) :
    (volatileGetFn g).2 = Except.ok (some v) ∧
    (volatileGetFn g).1.node.calls = g.node.calls + 1 ∧
    (volatileGetFn g).1.node.value = some v ∧
    (volatileGetFn g).1.node.dirty = false ∧
    (volatileGetFn g).1.node.live = true ∧
    (volatileGetFn g).1.node.volatile = false ∧
    (volatileGetFn (volatileGetFn g).1).2 = Except.ok (some v) ∧
    (volatileGetFn (volatileGetFn g).1).1.node = (volatileGetFn g).1.node ∧
    (volatileGetFn (volatileGetFn g).1).1.epoch = (volatileGetFn g).1.epoch := by
  simp [volatileGetFn, producerUpdateValueVersion, producerRecomputeValue,
    producerRecomputeValueWith, invokeGetSnapshot, consumerBeforeComputation,
    consumerAfterComputation, afterRecompute, producerAccessed_node,
    producerAccessed_epoch, producerMustRecompute, hvol, hlive, hdirty, hsnap]

/-- C2 witness: the theorem applied to a tracked node at the start of a
live interval whose first getter invocation yields 5. -/
theorem C2_witness :
    trackedGraph.node.volatile = false ∧
    trackedGraph.node.live = true ∧
    trackedGraph.node.dirty = true ∧
    trackedGraph.node.getSnapshot trackedGraph.node.calls = Except.ok 5 ∧
    (volatileGetFn (volatileGetFn trackedGraph).1).2 = Except.ok (some 5) :=
  ⟨rfl, rfl, rfl, rfl,
    (C2_tracked_getter_once_per_interval trackedGraph 5 rfl rfl rfl rfl).2.2.2.2.2.2.1⟩

/-- C5 counterexample: over a getter whose first invocation throws the
error 7 and whose second invocation yields 101, the first read of a fresh
node propagates the error but does not capture it in the value slot (still
uninitialized), and the second read does not re-raise: it re-invokes the
getter (two invocations in total) and returns its value, although no
producer change invalidated the node in between. -/
theorem C5_counterexample :
    (volatileGetFn throwGraph).2 = Except.error 7 ∧
    (volatileGetFn throwGraph).1.node.value = none ∧
    (volatileGetFn (volatileGetFn throwGraph).1).2 = Except.ok (some 101) ∧
    (volatileGetFn (volatileGetFn throwGraph).1).1.node.calls = 2 :=
  ⟨rfl, rfl, rfl, rfl⟩

/-- C5 amended: if `getSnapshot` throws during a read that recomputes (the
node is volatile or dirty), the error propagates to the caller of the read;
the value slot, the dirty flag and the getter are left unchanged and the
node is again volatile-or-dirty, so the next read re-invokes the getter
rather than re-raising a captured error. -/
theorem C5_amended_error_propagates_without_capture
    (g : GraphState V E) (e : E)
    (hrun : g.node.volatile = true ∨ g.node.dirty = true)
    (hsnap : g.node.getSnapshot g.node.calls = Except.error e) :
    (volatileGetFn g).2 = Except.error e ∧
    (volatileGetFn g).1.node.value = g.node.value ∧
    (volatileGetFn g).1.node.calls = g.node.calls + 1 ∧
    (volatileGetFn g).1.node.dirty = g.node.dirty ∧
    (volatileGetFn g).1.node.getSnapshot = g.node.getSnapshot ∧
    ((volatileGetFn g).1.node.volatile = true ∨ (volatileGetFn g).1.node.dirty = true) := by
  cases hb : g.node.volatile with
  | true =>
    simp [volatileGetFn, producerUpdateValueVersion, producerRecomputeValue,
      producerRecomputeValueWith, invokeGetSnapshot, consumerBeforeComputation,
      consumerAfterComputation, afterRecompute, hb, hsnap]
  | false =>
    have hdirty : g.node.dirty = true := by
      rcases hrun with h | h
      · rw [hb] at h; exact absurd h (by simp)
      · exact h
    simp [volatileGetFn, producerUpdateValueVersion, producerRecomputeValue,
      producerRecomputeValueWith, invokeGetSnapshot, consumerBeforeComputation,
      consumerAfterComputation, afterRecompute, producerMustRecompute,
      hb, hdirty, hsnap]

/-- C5 amendment witness: the amended theorem applied to a fresh node over
the getter whose first invocation throws the error 7. -/
theorem C5_amended_witness :
    (throwGraph.node.volatile = true ∨ throwGraph.node.dirty = true) ∧
    throwGraph.node.getSnapshot throwGraph.node.calls = Except.error 7 ∧
    (volatileGetFn throwGraph).2 = Except.error 7 :=
  ⟨Or.inl rfl, rfl,
    (C5_amended_error_propagates_without_capture throwGraph 7 (Or.inl rfl) rfl).1⟩

/-- C6 counterexample: a tracked node has cached the value 42 from an
external source that keeps returning 42.  `onChange` increments `version`
even though the value the node is read as stays 42 (and the cached slot is
recomputed to the same 42), so `version` increases while the observable
value is unchanged. -/
theorem C6_counterexample :
    (volatileGetFn cachedGraph).2 = Except.ok (some 42) ∧
    (onChange cachedGraph).node.version = cachedGraph.node.version + 1 ∧
    (volatileGetFn (onChange cachedGraph)).2 = Except.ok (some 42) ∧
    (volatileGetFn (onChange cachedGraph)).1.node.value = cachedGraph.node.value :=
  ⟨rfl, rfl, rfl, rfl⟩

/-- C6 amended: `version` of a volatile node is incremented exactly by each
`onChange` invocation, with no equality check against the value the node
would be read as; reads (including the recomputations they trigger) never
change `version`. -/
theorem C6_amended_version_counts_onChange (g : GraphState V E) :
    (onChange g).node.version = g.node.version + 1 ∧
    (volatileGetFn g).1.node.version = g.node.version := by
  refine ⟨rfl, ?_⟩
  unfold volatileGetFn producerUpdateValueVersion producerRecomputeValue
    producerRecomputeValueWith invokeGetSnapshot
  cases hb : g.node.volatile with
  | true =>
    cases hres : g.node.getSnapshot g.node.calls <;>
      simp [hb, hres, consumerBeforeComputation, consumerAfterComputation,
        afterRecompute, producerAccessed_node]
  | false =>
    by_cases hskip : g.node.dirty = false ∧ g.node.lastCheckedEpoch = some g.epoch
    · simp [hb, hskip, producerAccessed_node]
    · by_cases hdirty : g.node.dirty = true
      · cases hres : g.node.getSnapshot g.node.calls <;>
          simp [hb, hskip, hdirty, hres, producerMustRecompute,
            consumerBeforeComputation, consumerAfterComputation, afterRecompute,
            producerAccessed_node]
      · by_cases hc : g.node.lastCheckedEpoch = some g.epoch <;>
          simp [hb, hskip, hdirty, hc, producerMustRecompute, producerAccessed_node]

/-- C7: `producerRecomputeValue` restores the previous tracking-context top
on every exit path: whatever the effect of the getter invocation — it may
mutate the graph state arbitrarily, return normally or throw — the
tracking-context top after the call equals the one before it, by the
unconditional restoration in the finally block (and trivially when no
tracking scope is entered). -/
theorem C7_tracking_context_restored
    (snapEff : SnapshotEffect V E) (g : GraphState V E) :
    (producerRecomputeValueWith snapEff g).1.activeConsumer = g.activeConsumer := by
  unfold producerRecomputeValueWith
  cases hb : (g.node.volatile || g.node.dirty) with
  | false => simp [hb]
  | true =>
    simp only [hb, if_true, consumerBeforeComputation, consumerAfterComputation]
    rcases hres : snapEff { g with activeConsumer := some g.node.id } with ⟨g2, v | e⟩ <;>
      simp [hres]

/-- C8 counterexample: invalidating a tracked node that has cached the
value 42 marks it dirty but does not reset the cached value slot to any
unset state: the stale 42 is still in the slot after `onChange`. -/
theorem C8_counterexample :
    cachedGraph.node.value = some 42 ∧
    (onChange cachedGraph).node.dirty = true ∧
    (onChange cachedGraph).node.value = some 42 :=
  ⟨rfl, rfl, rfl⟩

/-- C8 amended: the cached value slot of a fresh volatile node is merely
uninitialized (the current source defines no UNSET sentinel) and stays so
until the first recompute; invalidation via `onChange` leaves the cached
value slot untouched — a previously cached value remains in the slot until
the next recompute overwrites it. -/
theorem C8_amended_value_slot_not_reset
    (f : Nat → Except E V) (g : GraphState V E) :
    (createVolatile f).value = none ∧
    (onChange g).node.value = g.node.value :=
  ⟨rfl, rfl⟩

/-- C9: if the `volatile` flag of the node is set when
`producerRecomputeValue` is entered, it is set again when it exits, on the
normal path and on the throwing path alike, even if the getter invocation
cleared the flag: the finally block re-asserts `alreadyVolatile`. -/
theorem C9_volatile_flag_restored
    (snapEff : SnapshotEffect V E) (g : GraphState V E)
    (hvol : g.node.volatile = true) :
    (producerRecomputeValueWith snapEff g).1.node.volatile = true := by
  unfold producerRecomputeValueWith
  simp only [hvol, Bool.true_or, if_true, consumerBeforeComputation, consumerAfterComputation]
  rcases hres : snapEff { g with activeConsumer := some g.node.id } with ⟨g2, v | e⟩ <;>
    simp [hres]

/-- C9 witness: the theorem applied to a fresh volatile node and a getter
effect that clears the `volatile` flag before returning. -/
theorem C9_witness :
    unobservedGraph.node.volatile = true ∧
    (producerRecomputeValueWith flagClearingEffect unobservedGraph).1.node.volatile = true :=
  ⟨rfl, C9_volatile_flag_restored flagClearingEffect unobservedGraph rfl⟩

end SignalVolatile
